import Mathlib

/-!
# Verification of the receipt-OCR event pipeline

A shallow embedding of the GCS-triggered receipt OCR Cloud Function
(`processReceipt` and its helpers in `src/unnamed/part_000`; the second half of
`src/index.js` is the same code with clients passed as parameters).  External
collaborators (the blob store and the vision model) are modelled by an
environment `Env` that fixes the outcome of each external call, and the
pipeline is a pure function from an event and an environment to a result,
a trace of the storage/model operations it issued, and the final content of
the output CSV object.
-/

namespace VertexOcr

/-- A JavaScript error value as observed by the code: an optional numeric
`code` (GCS errors carry e.g. `404`) and a `message`. -/
structure JsError where
  code : Option Nat
  message : String
deriving DecidableEq

/-- A JavaScript value appearing in a CSV record: a string, a number, or
`undefined` (the value of a missing object property). -/
inductive Cell where
  | str (s : String)
  | num (n : Int)
  | undef
deriving DecidableEq

/-- The record parsed from the Gemini response (`analyzeImageWithGemini`
returns `JSON.parse(textResponse)`).  Each property of the parsed object may
be `undefined` when the model omitted it, hence fields are `Cell`s. -/
structure ExtractedRecord where
  store_name : Cell
  total_amount : Cell
  transaction_date : Cell
deriving DecidableEq

/-- The GCS event payload fields read by the handler: `event.data.name`,
`event.data.bucket`, and the object's declared `contentType` (delivered with
the event but, in this variant, never read by the code). -/
structure UploadEvent where
  name : Option String
  bucket : Option String
  contentType : Option String
deriving DecidableEq

/-- One external operation issued by the pipeline, in program order:
a GCS object download, a Gemini `generateContent` call (with the image bytes,
the MIME type and the instruction text it was given), a metadata/existence
check of the CSV object, a write of bytes to the CSV object, or a rename of
an object within a bucket. -/
inductive Effect where
  | download (bucket objectName : String)
  | gemini (imageBase64 mimeType promptText : String)
  | csvMeta
  | csvWrite (content : String)
  | rename (bucket oldName newName : String)
deriving DecidableEq

/-- `src/unnamed/part_000` line 6: the input bucket name. -/
def INPUT_BUCKET_NAME : String := "receipt-input-data-2025-1005"

/-- `src/unnamed/part_000` line 8: the configured output CSV object name. -/
def OUTPUT_CSV_FILE : String := "output.csv"

/-- The fixed instruction text sent to the vision model
(`src/unnamed/part_000` lines 112-120). -/
def GEMINI_PROMPT : String :=
  "\n        You are an expert receipt and invoice data extractor. \n        Analyze the image and extract the following information into a single JSON object.\n        1. store_name: The name of the store or merchant.\n        2. total_amount: The total amount paid (numeric value).\n        3. transaction_date: The date of the transaction in YYYY-MM-DD format.\n\n        If any field is missing, use \"N/A\" for strings and 0 for numbers.\n    "

/-- Does a character list contain a character that forces CSV quoting
(the field delimiter, the quote character, or a record terminator)? -/
def listHasSpecial : List Char → Bool
  | [] => false
  | c :: cs => (c = ',' || c = '"' || c = '\n' || c = '\r') || listHasSpecial cs

/-- Double every quote character, as standard CSV escaping does. -/
def escapeQuotes : List Char → List Char
  | [] => []
  | c :: cs => if c = '"' then '"' :: '"' :: escapeQuotes cs else c :: escapeQuotes cs

/-- Encode one CSV field following the `csv-stringify` default rules: the
value is quoted exactly when it contains a delimiter, a quote or a record
terminator, and internal quotes are doubled. -/
def encodeField (s : String) : String :=
  if listHasSpecial s.data then "\"" ++ String.mk (escapeQuotes s.data) ++ "\"" else s

/-- The string cast `csv-stringify` applies to a record value: strings are
kept, numbers are rendered in decimal, `undefined` becomes the empty field. -/
def cellToString : Cell → String
  | .str s => s
  | .num n => toString n
  | .undef => ""

/-- Join already-encoded fields with the `,` delimiter. -/
def joinComma : List String → String
  | [] => ""
  | [x] => x
  | x :: y :: xs => x ++ "," ++ joinComma (y :: xs)

/-- Encode one record as a CSV line terminated by the record delimiter. -/
def encodeRow (r : List Cell) : String :=
  joinComma (r.map (fun c => encodeField (cellToString c))) ++ "\n"

/-- The fixed column list passed to `stringify`
(`src/unnamed/part_000` line 183). -/
def CSV_COLUMNS : List String := ["SourceFile", "StoreName", "TotalAmount", "TransactionDate"]

/-- The header line synthesized from the fixed column list. -/
def headerLine : String := encodeRow (CSV_COLUMNS.map Cell.str)

/-- The output of the `csv-stringify` stringifier configured with
`header: withHeader, columns: CSV_COLUMNS` after writing `rows` and ending:
the header line (if requested) followed by one encoded line per record. -/
def stringifyRows (withHeader : Bool) (rows : List (List Cell)) : String :=
  (if withHeader then headerLine else "") ++ String.join (rows.map encodeRow)

/-- Is `tag` a leading segment of the character list `cs`? -/
def listIsTagOf : List Char → List Char → Bool
  | [], _ => true
  | _ :: _, [] => false
  | p :: ps, c :: cs => p = c && listIsTagOf ps cs

/-- JavaScript `s.startsWith(tag)` on the embedded strings. -/
def strStartsWith (s tag : String) : Bool := listIsTagOf tag.data s.data

/-- `convertJsonToCsvData` (`src/unnamed/part_000` lines 151-161): the one
record to write, the source file name followed by the extracted fields,
taken verbatim from the parsed JSON object. -/
def convertJsonToCsvData (jsonOutput : ExtractedRecord) (sourceFileName : String) :
    List (List Cell) :=
  [[Cell.str sourceFileName, jsonOutput.store_name, jsonOutput.total_amount,
    jsonOutput.transaction_date]]

/-- The error constructed by `appendDataToCsvFile` when the write throws
(`src/unnamed/part_000` line 208): `new Error('CSV書き込みエラー')`. -/
def csvWriteFailedError : JsError := ⟨none, "CSV書き込みエラー"⟩

/-- `appendDataToCsvFile` (`src/unnamed/part_000` lines 168-210).
`meta` is the outcome of the `file.getMetadata()` existence check (a 404
error exactly when the CSV object `st` does not exist), `writeErr` an
injected failure of the write, `st` the current CSV object content (`none`
when absent).  Returns the operations issued and either the propagated /
constructed error or the new content of the CSV object.  A caught metadata
error with code 404 sets `isNewFile`; any other metadata error is rethrown
unchanged.  The stringifier emits the header exactly when `isNewFile`, and
the write lands at offset 0 for a new file and at the current object size
(i.e. after the existing bytes, read by a second metadata call) otherwise.
A write failure is replaced by the generic `csvWriteFailedError`. -/
def appendDataToCsvFile (data : List (List Cell)) (meta : Except JsError Unit)
    (writeErr : Option JsError) (st : Option String) :
    List Effect × Except JsError (Option String) :=
  match meta with
  | .error e =>
    if e.code == some 404 then
      let csvString := stringifyRows true data
      match writeErr with
      | some _ => ([Effect.csvMeta, Effect.csvWrite csvString], .error csvWriteFailedError)
      | none => ([Effect.csvMeta, Effect.csvWrite csvString], .ok (some csvString))
    else
      ([Effect.csvMeta], .error e)
  | .ok _ =>
    let csvString := stringifyRows false data
    match writeErr with
    | some _ =>
      ([Effect.csvMeta, Effect.csvMeta, Effect.csvWrite csvString], .error csvWriteFailedError)
    | none =>
      ([Effect.csvMeta, Effect.csvMeta, Effect.csvWrite csvString],
       .ok (some (st.getD "" ++ csvString)))

/-- `renameFile` (`src/unnamed/part_000` lines 218-227): compute
`newFileName = (isError ? '[ERROR_PROCESSED]' : '[PROCESSED]') + fileName`
and issue a single rename of the object within the same bucket; no retry.
Returns the issued operations and the new name. -/
def renameFile (bucketName fileName : String) (isError : Bool) : List Effect × String :=
  let tag := if isError then "[ERROR_PROCESSED]" else "[PROCESSED]"
  let newFileName := tag ++ fileName
  ([Effect.rename bucketName fileName newFileName], newFileName)

/-- The environment fixing the outcome of each external call during one
invocation: result of the GCS download, result of the Gemini call together
with the JSON parse (`Except` error covers both the API throwing and
`JSON.parse` throwing), outcome of the CSV existence check, an injected
failure of the CSV write, the current CSV object content, and the outcome of
the rename call indexed by its `isError` flag. -/
structure Env where
  downloadResult : Except JsError String
  geminiResult : Except JsError ExtractedRecord
  csvMeta : Except JsError Unit
  csvWriteErr : Option JsError
  csvState : Option String
  renameResult : Bool → Except JsError Unit

/-- The observable outcome of one invocation: the value or error the handler
settles with, the ordered trace of external operations it issued, and the
final content of the output CSV object. -/
structure PRes where
  result : Except JsError Unit
  effects : List Effect
  csv : Option String

/-- The error thrown by the catch block of `processReceipt`
(`src/unnamed/part_000` line 83): `new Error('OCR Process Failed for ' + fileName)`. -/
def ocrFailedError (fileName : String) : JsError :=
  ⟨none, "OCR Process Failed for " ++ fileName⟩

/-- The catch block of `processReceipt` (`src/unnamed/part_000` lines 75-84):
attempt the error-rename (its own failure is caught and only logged, so it
changes nothing observable here), then throw the fresh generic error. -/
def errorCatch (bucketName fileName : String) (effs : List Effect) (csv : Option String) :
    PRes :=
  let rn := renameFile bucketName fileName true
  ⟨.error (ocrFailedError fileName), effs ++ rn.1, csv⟩

/-- The try block of `processReceipt` (`src/unnamed/part_000` lines 55-74):
download and base64-encode the object, call Gemini (with the hardcoded
`mimeType: 'image/jpeg'` of line 125 and the fixed prompt), transform the
parsed record, append to the CSV object, rename the source object with the
success tag; on the first failing step, fall to the catch block. -/
def tryBlock (fileName bucketName : String) (env : Env) : PRes :=
  match env.downloadResult with
  | .error _ =>
    errorCatch bucketName fileName [Effect.download bucketName fileName] env.csvState
  | .ok base64Image =>
    match env.geminiResult with
    | .error _ =>
      errorCatch bucketName fileName
        [Effect.download bucketName fileName,
         Effect.gemini base64Image "image/jpeg" GEMINI_PROMPT] env.csvState
    | .ok jsonOutput =>
      match (appendDataToCsvFile (convertJsonToCsvData jsonOutput fileName)
          env.csvMeta env.csvWriteErr env.csvState).2 with
      | .error _ =>
        errorCatch bucketName fileName
          ([Effect.download bucketName fileName,
            Effect.gemini base64Image "image/jpeg" GEMINI_PROMPT] ++
           (appendDataToCsvFile (convertJsonToCsvData jsonOutput fileName)
              env.csvMeta env.csvWriteErr env.csvState).1) env.csvState
      | .ok newCsv =>
        match env.renameResult false with
        | .error _ =>
          errorCatch bucketName fileName
            ([Effect.download bucketName fileName,
              Effect.gemini base64Image "image/jpeg" GEMINI_PROMPT] ++
             (appendDataToCsvFile (convertJsonToCsvData jsonOutput fileName)
                env.csvMeta env.csvWriteErr env.csvState).1 ++
             (renameFile bucketName fileName false).1) newCsv
        | .ok _ =>
          ⟨.ok (),
           [Effect.download bucketName fileName,
            Effect.gemini base64Image "image/jpeg" GEMINI_PROMPT] ++
           (appendDataToCsvFile (convertJsonToCsvData jsonOutput fileName)
              env.csvMeta env.csvWriteErr env.csvState).1 ++
           (renameFile bucketName fileName false).1, newCsv⟩

/-- `processReceipt` (`src/unnamed/part_000` lines 35-85): validate the event
fields (JavaScript falsiness: absent or empty string), apply the skip filter
(`fileName.startsWith('[PROCESSED]') || fileName === OUTPUT_CSV_FILE`), then
run the try block. -/
def processReceipt (event : UploadEvent) (env : Env) : PRes :=
  match event.name, event.bucket with
  | some fileName, some bucketName =>
    if fileName == "" || bucketName == "" then ⟨.ok (), [], env.csvState⟩
    else if strStartsWith fileName "[PROCESSED]" || fileName == OUTPUT_CSV_FILE then
      ⟨.ok (), [], env.csvState⟩
    else tryBlock fileName bucketName env
  | _, _ => ⟨.ok (), [], env.csvState⟩

/-- The conjunction of the validate check and the skip filter: a file name
and bucket name pair on which the pipeline body runs. -/
def passesFilters (fileName bucketName : String) : Bool :=
  !(fileName == "" || bucketName == "") &&
  !(strStartsWith fileName "[PROCESSED]" || fileName == OUTPUT_CSV_FILE)

/-- Is an `Except` outcome an error? -/
def isErrB {α : Type} (x : Except JsError α) : Bool :=
  match x with
  | .error _ => true
  | .ok _ => false

/-- Does the CSV append step fail in environment `env`?  It fails exactly
when the existence check throws with a code other than 404, or the write
throws. -/
def appendFails (env : Env) : Bool :=
  (match env.csvMeta with
   | .error e => !(e.code == some 404)
   | .ok _ => false) || env.csvWriteErr.isSome

/-- Does some step of the try block (download, extract, append, or the
success rename) fail in environment `env`? -/
def someStepFails (env : Env) : Bool :=
  isErrB env.downloadResult || isErrB env.geminiResult || appendFails env ||
    isErrB (env.renameResult false)

/-- A Gemini result for a fully populated record, used as a concrete
environment for evaluation. -/
def recAcme : ExtractedRecord := ⟨.str "Acme", .num 12, .str "2024-01-01"⟩

/-- An environment in which every external call succeeds and the output CSV
object does not exist yet. -/
def envOk : Env :=
  ⟨.ok "IMGDATA", .ok recAcme, .error ⟨some 404, "No such object"⟩, none, none,
   fun _ => .ok ()⟩

/-! ## Helper lemmas -/

lemma err_tagged_ne_ok_tagged (n : String) :
    "[ERROR_PROCESSED]" ++ n ≠ "[PROCESSED]" ++ n := by
  intro h
  have hl := congrArg String.length h
  rw [String.length_append, String.length_append] at hl
  have h17 : ("[ERROR_PROCESSED]" : String).length = 17 := rfl
  have h11 : ("[PROCESSED]" : String).length = 11 := rfl
  rw [h17, h11] at hl
  omega

lemma doubly_tagged_ne (s : String) :
    "[ERROR_PROCESSED]" ++ ("[ERROR_PROCESSED]" ++ s) ≠ "[ERROR_PROCESSED]" ++ s := by
  intro h
  have hl := congrArg String.length h
  simp only [String.length_append] at hl
  have h17 : ("[ERROR_PROCESSED]" : String).length = 17 := rfl
  rw [h17] at hl
  omega

lemma processReceipt_eq_tryBlock (ev : UploadEvent) (env : Env) (n b : String)
    (hn : ev.name = some n) (hb : ev.bucket = some b)
    (hp : passesFilters n b = true) :
    processReceipt ev env = tryBlock n b env := by
  unfold passesFilters at hp
  simp only [Bool.and_eq_true, Bool.not_eq_true', Bool.or_eq_false_iff] at hp
  obtain ⟨⟨h1, h2⟩, h3, h4⟩ := hp
  simp [processReceipt, hn, hb, h1, h2, h3, h4]

lemma append_isErr_eq_appendFails (d : List (List Cell)) (env : Env) :
    isErrB (appendDataToCsvFile d env.csvMeta env.csvWriteErr env.csvState).2 =
      appendFails env := by
  unfold appendFails
  rcases hm : env.csvMeta with e | u
  · cases hc : e.code == some 404 <;> cases hw : env.csvWriteErr <;>
      simp [appendDataToCsvFile, isErrB, hc, hm, hw]
  · cases hw : env.csvWriteErr <;> simp [appendDataToCsvFile, isErrB, hm, hw]

lemma mem_errorCatch_effects (b' n' b n : String) (effs : List Effect) (st : Option String)
    (h : Effect.rename b n ("[PROCESSED]" ++ n) ∈ (errorCatch b' n' effs st).effects) :
    Effect.rename b n ("[PROCESSED]" ++ n) ∈ effs := by
  simp only [errorCatch, renameFile, if_true, List.mem_append, List.mem_singleton] at h
  rcases h with h | h
  · exact h
  · exfalso
    rw [Effect.rename.injEq] at h
    obtain ⟨hb, hn, he⟩ := h
    subst hn
    exact err_tagged_ne_ok_tagged n he.symm

/-! ## Concrete events and environments used for evaluation -/

/-- An event for a name already bearing the success tag. -/
def evTagged : UploadEvent := ⟨some "[PROCESSED]r1.jpg", some "b", none⟩

/-- An event for the output CSV object itself. -/
def evCsvName : UploadEvent := ⟨some "output.csv", some "b", none⟩

/-- An event for a name already bearing the error tag. -/
def evErrTagged : UploadEvent := ⟨some "[ERROR_PROCESSED]r2.jpg", some "b", none⟩

/-- An event for an ordinary unprocessed object. -/
def ev2 : UploadEvent := ⟨some "r2.jpg", some "b", none⟩

/-- An event whose payload declares the content type `image/png`. -/
def evPng : UploadEvent := ⟨some "r1.png", some "b", some "image/png"⟩

/-- A concrete storage failure with a non-404 code. -/
def e500 : JsError := ⟨some 500, "network down"⟩

/-- An environment in which the download step throws `e500`. -/
def envDl500 : Env := { envOk with downloadResult := .error e500 }

/-- A concrete storage failure of the download call. -/
def e502 : JsError := ⟨some 502, "download timeout"⟩

/-- An environment in which the download step throws `e502`. -/
def envDl502 : Env := { envOk with downloadResult := .error e502 }

/-- A well-formed JSON object in which all three expected properties are
missing (e.g. the model returned `{}`): every property access yields
`undefined`. -/
def recMissing : ExtractedRecord := ⟨.undef, .undef, .undef⟩

/-- An environment in which the Gemini response parses to `recMissing`. -/
def envMissing : Env := { envOk with geminiResult := .ok recMissing }

/-! ## Claims -/

/-- C1: the claim says events whose object name bears the `[PROCESSED]` or
the `[ERROR_PROCESSED]` tag, or equals the output CSV name, are complete
no-ops.  The code only tests `startsWith('[PROCESSED]')` and equality with
`output.csv`: the `[PROCESSED]`-tagged and `output.csv` events indeed issue
no operation and return normally, but an `[ERROR_PROCESSED]`-tagged name
passes the filter and the pipeline downloads it, calls the model and writes
to the CSV object — contradicting the claim (and the code's own comment that
the error rename prevents an infinite reprocessing loop). -/
theorem skip_filter_misses_error_tagged_names :
    (processReceipt evTagged envOk).effects = [] ∧
    (processReceipt evTagged envOk).result = .ok () ∧
    (processReceipt evCsvName envOk).effects = [] ∧
    (processReceipt evCsvName envOk).result = .ok () ∧
    Effect.download "b" "[ERROR_PROCESSED]r2.jpg" ∈ (processReceipt evErrTagged envOk).effects ∧
    (∃ c, Effect.csvWrite c ∈ (processReceipt evErrTagged envOk).effects) :=
  ⟨rfl, rfl, rfl, rfl, by decide,
   ⟨headerLine ++ encodeRow [Cell.str "[ERROR_PROCESSED]r2.jpg", Cell.str "Acme",
      Cell.num 12, Cell.str "2024-01-01"], by decide⟩⟩

/-- C2 counterexample: with the download step throwing the concrete error
`e500`, the handler settles with the freshly constructed
`OCR Process Failed for r2.jpg` error, which is not the original failure
`e500` — so the original failure is not re-signaled to the caller. -/
theorem original_error_not_resignaled :
    envDl500.downloadResult = .error e500 ∧
    (processReceipt ev2 envDl500).result = .error (ocrFailedError "r2.jpg") ∧
    ocrFailedError "r2.jpg" ≠ e500 :=
  ⟨rfl, rfl, by decide⟩

/-- C4 counterexample: an extraction result with all three properties
missing reaches the transform step untouched: the produced row carries
`undefined` entries (not the `"N/A"`/`0` sentinels), the pipeline completes
normally, and the CSV object receives a row with empty fields. -/
theorem extraction_missing_fields_not_normalized :
    (∃ r ∈ convertJsonToCsvData recMissing "r3.jpg", Cell.undef ∈ r) ∧
    (processReceipt ⟨some "r3.jpg", some "b", none⟩ envMissing).result = .ok () ∧
    (processReceipt ⟨some "r3.jpg", some "b", none⟩ envMissing).csv
        = some "SourceFile,StoreName,TotalAmount,TransactionDate\nr3.jpg,,,\n" :=
  ⟨by decide, rfl, rfl⟩

/-- C4 amended: `convertJsonToCsvData` performs no normalization at all: the
produced CsvRow is the source file name followed by the `store_name`,
`total_amount` and `transaction_date` properties taken verbatim from the
extraction result, so a missing (undefined) property stays undefined in the
row.  The `"N/A"`/`0` substitution is only requested of the model by the
prompt text. -/
theorem convertJsonToCsvData_verbatim :
    ∀ (r : ExtractedRecord) (n : String),
      convertJsonToCsvData r n =
        [[Cell.str n, r.store_name, r.total_amount, r.transaction_date]] :=
  fun _ _ => rfl

/-- C7: `renameFile` computes `newName = tagFor(outcome) ++ objectName`,
where the success tag is `[PROCESSED]` and the error tag is
`[ERROR_PROCESSED]`, and issues exactly one rename of the object within the
same bucket. -/
theorem renameFile_spec :
    ∀ (b n : String) (isErr : Bool),
      renameFile b n isErr =
        ([Effect.rename b n ((if isErr then "[ERROR_PROCESSED]" else "[PROCESSED]") ++ n)],
         (if isErr then "[ERROR_PROCESSED]" else "[PROCESSED]") ++ n) ∧
      (renameFile b n isErr).1.length = 1 := by
  intro b n isErr
  cases isErr <;> exact ⟨rfl, rfl⟩

/-- C8: `renameFile` prepends its state tag unconditionally: the new name is
always `tag ++ fileName`, so marking an already error-tagged name yields a
doubly tagged name (concretely, `[ERROR_PROCESSED][ERROR_PROCESSED]x`), which
differs from the singly tagged name — marking is not idempotent. -/
theorem renameFile_not_idempotent :
    ∀ (b s : String) (isErr : Bool),
      (renameFile b s isErr).2 = (if isErr then "[ERROR_PROCESSED]" else "[PROCESSED]") ++ s ∧
      (renameFile b ("[ERROR_PROCESSED]" ++ s) true).2
          = "[ERROR_PROCESSED]" ++ ("[ERROR_PROCESSED]" ++ s) ∧
      (renameFile b ("[ERROR_PROCESSED]" ++ s) true).2 ≠ "[ERROR_PROCESSED]" ++ s ∧
      (renameFile "b" "[ERROR_PROCESSED]x" true).2 = "[ERROR_PROCESSED][ERROR_PROCESSED]x" := by
  intro b s isErr
  refine ⟨?_, rfl, doubly_tagged_ne s, rfl⟩
  cases isErr <;> rfl

/-- C10: `appendDataToCsvFile` surfaces failures asymmetrically: a failure of
the existence check whose code is not 404 is rethrown unchanged (the very
same error value), while any failure during the write is replaced by the
newly constructed generic error with message `CSV書き込みエラー`,
independently of the original write error value. -/
theorem append_error_asymmetry :
    ∀ (e eW : JsError) (d : List (List Cell)) (w : Option JsError) (st : Option String),
      e.code ≠ some 404 →
      (appendDataToCsvFile d (.error e) w st).2 = .error e ∧
      (appendDataToCsvFile d (.ok ()) (some eW) st).2 = .error csvWriteFailedError ∧
      (∀ e404 : JsError, e404.code = some 404 →
        (appendDataToCsvFile d (.error e404) (some eW) st).2 = .error csvWriteFailedError) ∧
      csvWriteFailedError = ⟨none, "CSV書き込みエラー"⟩ := by
  intro e eW d w st h
  have hc : (e.code == some 404) = false := beq_eq_false_iff_ne.mpr h
  refine ⟨?_, ?_, ?_, rfl⟩
  · simp [appendDataToCsvFile, hc]
  · simp [appendDataToCsvFile]
  · intro e404 h404
    have hc4 : (e404.code == some 404) = true := by simp [h404]
    simp [appendDataToCsvFile, hc4]

/-- C10 witness: the asymmetry evaluated at the concrete non-404 error
`e500` and the concrete write failure with code 503. -/
theorem append_error_asymmetry_witness :
    e500.code ≠ some 404 ∧
    (appendDataToCsvFile [[Cell.str "x"]] (.error e500) none none).2 = .error e500 ∧
    (appendDataToCsvFile [[Cell.str "x"]] (.ok ()) (some ⟨some 503, "disk"⟩) none).2
        = .error csvWriteFailedError :=
  ⟨by decide,
   (append_error_asymmetry e500 ⟨some 503, "disk"⟩ [[Cell.str "x"]] none none (by decide)).1,
   (append_error_asymmetry e500 ⟨some 503, "disk"⟩ [[Cell.str "x"]] none none (by decide)).2.1⟩

/-- C3: when the target CSV object does not exist (the existence check
throws a 404 error), the written content is exactly the header line
synthesized from the fixed column list followed by the encoded row; when it
exists with content ending in a line terminator, only the encoded row (no
header) is written, and the new content places the row after the existing
content, separated from it by that line terminator.  The last conjunct shows
every encoded row itself ends in a line terminator, so content produced by
this function always satisfies the separation precondition. -/
theorem appendDataToCsvFile_header_and_append :
    ∀ (row : List Cell) (e : JsError), e.code = some 404 →
      (appendDataToCsvFile [row] (.error e) none none).2
          = .ok (some (headerLine ++ encodeRow row)) ∧
      (appendDataToCsvFile [row] (.error e) none none).1
          = [Effect.csvMeta, Effect.csvWrite (headerLine ++ encodeRow row)] ∧
      (∀ c : String,
        (appendDataToCsvFile [row] (.ok ()) none (some (c ++ "\n"))).2
            = .ok (some ((c ++ "\n") ++ encodeRow row)) ∧
        (appendDataToCsvFile [row] (.ok ()) none (some (c ++ "\n"))).1
            = [Effect.csvMeta, Effect.csvMeta, Effect.csvWrite (encodeRow row)]) ∧
      (∃ t, encodeRow row = t ++ "\n") := by
  intro row e h
  have hc : (e.code == some 404) = true := by simp [h]
  refine ⟨?_, ?_, fun c => ⟨rfl, rfl⟩, ⟨_, rfl⟩⟩
  · simp only [appendDataToCsvFile, hc, if_true]
    rfl
  · simp only [appendDataToCsvFile, hc, if_true]
    rfl

/-- C3 witness: the append behaviour evaluated at a concrete row, a concrete
404 error and the concrete existing content `a,b\n`. -/
theorem appendDataToCsvFile_header_and_append_witness :
    (⟨some 404, "No such object"⟩ : JsError).code = some 404 ∧
    (appendDataToCsvFile [[Cell.str "x"]] (.error ⟨some 404, "No such object"⟩) none none).2
        = .ok (some (headerLine ++ encodeRow [Cell.str "x"])) ∧
    (appendDataToCsvFile [[Cell.str "x"]] (.ok ()) none (some ("a,b" ++ "\n"))).2
        = .ok (some (("a,b" ++ "\n") ++ encodeRow [Cell.str "x"])) :=
  ⟨rfl,
   (appendDataToCsvFile_header_and_append [Cell.str "x"] ⟨some 404, "No such object"⟩ rfl).1,
   ((appendDataToCsvFile_header_and_append [Cell.str "x"] ⟨some 404, "No such object"⟩
      rfl).2.2.1 "a,b").1⟩

/-- C5 counterexample: the claim says the download failure is re-signaled to
the caller.  With the download throwing the concrete failure `e502`, the
invocation instead settles with the freshly constructed generic
`OCR Process Failed for r5.jpg` error, which is not `e502` — even though the
rest of the claim holds there: the error-tag rename is issued and the CSV
object is untouched. -/
theorem download_failure_original_error_replaced :
    envDl502.downloadResult = .error e502 ∧
    (processReceipt ⟨some "r5.jpg", some "b", none⟩ envDl502).result
        = .error (ocrFailedError "r5.jpg") ∧
    ocrFailedError "r5.jpg" ≠ e502 ∧
    (processReceipt ⟨some "r5.jpg", some "b", none⟩ envDl502).csv = envDl502.csvState ∧
    Effect.rename "b" "r5.jpg" ("[ERROR_PROCESSED]" ++ "r5.jpg")
        ∈ (processReceipt ⟨some "r5.jpg", some "b", none⟩ envDl502).effects :=
  ⟨rfl, rfl, by decide, rfl, by decide⟩

/-- C5 amended: for an event passing the validate and skip-filter steps, if
the download step throws then the invocation issues exactly the download and
the error-tag rename of the source object — no CSV existence check, no CSV
write, no model call — leaves the CSV object unchanged, and settles by
signaling the newly constructed generic `OCR Process Failed for <name>`
failure in place of the original download failure. -/
theorem download_failure_no_csv_mutation :
    ∀ (ev : UploadEvent) (env : Env) (n b : String) (e : JsError),
      ev.name = some n → ev.bucket = some b → passesFilters n b = true →
      env.downloadResult = .error e →
      (processReceipt ev env).effects =
        [Effect.download b n, Effect.rename b n ("[ERROR_PROCESSED]" ++ n)] ∧
      (processReceipt ev env).csv = env.csvState ∧
      (processReceipt ev env).result = .error (ocrFailedError n) := by
  intro ev env n b e hn hb hp hdl
  rw [processReceipt_eq_tryBlock ev env n b hn hb hp]
  unfold tryBlock
  rw [hdl]
  exact ⟨rfl, rfl, rfl⟩

/-- C5 amended witness: the download-failure behaviour evaluated at the
concrete event for `r2.jpg` and the environment whose download throws
`e500`. -/
theorem download_failure_no_csv_mutation_witness :
    passesFilters "r2.jpg" "b" = true ∧
    envDl500.downloadResult = .error e500 ∧
    (processReceipt ev2 envDl500).effects =
      [Effect.download "b" "r2.jpg",
       Effect.rename "b" "r2.jpg" ("[ERROR_PROCESSED]" ++ "r2.jpg")] ∧
    (processReceipt ev2 envDl500).csv = envDl500.csvState ∧
    (processReceipt ev2 envDl500).result = .error (ocrFailedError "r2.jpg") := by
  refine ⟨by decide, rfl, ?_⟩
  exact download_failure_no_csv_mutation ev2 envDl500 "r2.jpg" "b" e500 rfl rfl (by decide) rfl

/-- C6 counterexample: the claim says the vision call carries the content
type declared by the triggering event.  For the concrete event declaring
`image/png`, the issued Gemini call carries the hardcoded `image/jpeg`
instead (`src/unnamed/part_000` line 125), and `image/jpeg ≠ image/png`. -/
theorem gemini_mime_hardcoded :
    evPng.contentType = some "image/png" ∧
    (processReceipt evPng envOk).effects =
      [Effect.download "b" "r1.png",
       Effect.gemini "IMGDATA" "image/jpeg" GEMINI_PROMPT,
       Effect.csvMeta,
       Effect.csvWrite (headerLine ++ encodeRow
         [Cell.str "r1.png", Cell.str "Acme", Cell.num 12, Cell.str "2024-01-01"]),
       Effect.rename "b" "r1.png" "[PROCESSED]r1.png"] ∧
    ("image/jpeg" : String) ≠ "image/png" :=
  ⟨rfl, rfl, by decide⟩

/-- C6 amended: for every event passing the filters whose download succeeds,
the extract step invokes the vision client with the encoded image bytes, the
hardcoded content type `image/jpeg` (the event's declared content type is
ignored) and the fixed natural-language instruction `GEMINI_PROMPT`, which
names the expected output fields and the `N/A`/`0` defaults; the returned
text is parsed as a structured record (modelled by the environment's
`geminiResult`). -/
theorem gemini_called_with_fixed_mime_and_instruction :
    ∀ (ev : UploadEvent) (env : Env) (n b img : String),
      ev.name = some n → ev.bucket = some b → passesFilters n b = true →
      env.downloadResult = .ok img →
      Effect.gemini img "image/jpeg" GEMINI_PROMPT ∈ (processReceipt ev env).effects := by
  intro ev env n b img hn hb hp hdl
  rw [processReceipt_eq_tryBlock ev env n b hn hb hp]
  unfold tryBlock
  rw [hdl]
  rcases hg : env.geminiResult with e | r
  · simp [errorCatch]
  · rcases happ : (appendDataToCsvFile (convertJsonToCsvData r n)
        env.csvMeta env.csvWriteErr env.csvState).2 with e | newCsv
    · simp [happ, errorCatch]
    · rcases hrn : env.renameResult false with e | u
      · simp [happ, hrn, errorCatch]
      · simp [happ, hrn]

/-- C6 amended witness: the fixed-MIME Gemini call evaluated at the concrete
`image/png` event and the all-success environment. -/
theorem gemini_called_with_fixed_mime_and_instruction_witness :
    passesFilters "r1.png" "b" = true ∧
    envOk.downloadResult = .ok "IMGDATA" ∧
    Effect.gemini "IMGDATA" "image/jpeg" GEMINI_PROMPT ∈ (processReceipt evPng envOk).effects :=
  ⟨by decide, rfl,
   gemini_called_with_fixed_mime_and_instruction evPng envOk "r1.png" "b" "IMGDATA"
     rfl rfl (by decide) rfl⟩

lemma rename_not_mem_append_effects (d : List (List Cell)) (meta : Except JsError Unit)
    (w : Option JsError) (st : Option String) (x y z : String) :
    Effect.rename x y z ∉ (appendDataToCsvFile d meta w st).1 := by
  rcases meta with e | u
  · cases hc : e.code == some 404 <;> cases hw : w <;>
      simp [appendDataToCsvFile, hc]
  · cases hw : w <;> simp [appendDataToCsvFile]

lemma append_effects_shape (d : List (List Cell)) (meta : Except JsError Unit)
    (w : Option JsError) (st : Option String)
    (h : isErrB (appendDataToCsvFile d meta w st).2 = false) :
    (appendDataToCsvFile d meta w st).1
        = [Effect.csvMeta, Effect.csvWrite (stringifyRows true d)] ∨
    (appendDataToCsvFile d meta w st).1
        = [Effect.csvMeta, Effect.csvMeta, Effect.csvWrite (stringifyRows false d)] := by
  rcases meta with e | u
  · cases hc : e.code == some 404 <;> cases hw : w
    · simp [appendDataToCsvFile, hc, isErrB] at h
    · simp [appendDataToCsvFile, hc, isErrB] at h
    · left
      simp [appendDataToCsvFile, hc]
    · left
      simp [appendDataToCsvFile, hc]
  · cases hw : w
    · right
      simp [appendDataToCsvFile]
    · right
      simp [appendDataToCsvFile]

/-- C2 amended: for every event that passes the validate and skip-filter
steps, if any of the download, extract, append, or success-rename steps
throws, `process(event)` attempts to rename the source object with the
error tag and then signals a newly constructed generic failure
(`OCR Process Failed for <name>`) to the caller — the original failure is
logged but replaced, not re-thrown — and it signals that same generic
failure regardless of whether the error-rename itself succeeds (the
environment's error-rename outcome is unconstrained and does not occur in
the conclusion, so the rename failure never masks the signaled error). -/
theorem failure_signals_generic_error :
    ∀ (ev : UploadEvent) (env : Env) (n b : String),
      ev.name = some n → ev.bucket = some b → passesFilters n b = true →
      someStepFails env = true →
      (processReceipt ev env).result = .error (ocrFailedError n) ∧
      Effect.rename b n ("[ERROR_PROCESSED]" ++ n) ∈ (processReceipt ev env).effects := by
  intro ev env n b hn hb hp hf
  rw [processReceipt_eq_tryBlock ev env n b hn hb hp]
  unfold tryBlock
  rcases hdl : env.downloadResult with e | img
  · simp [hdl, errorCatch, renameFile]
  · simp only [hdl]
    rcases hg : env.geminiResult with e | r
    · simp [hg, errorCatch, renameFile]
    · simp only [hg]
      rcases happ : (appendDataToCsvFile (convertJsonToCsvData r n)
          env.csvMeta env.csvWriteErr env.csvState).2 with e | newCsv
      · simp [happ, errorCatch, renameFile]
      · simp only [happ]
        rcases hrn : env.renameResult false with e | u
        · simp [hrn, errorCatch, renameFile]
        · exfalso
          have h3 : appendFails env = false := by
            rw [← append_isErr_eq_appendFails (convertJsonToCsvData r n) env, happ]
            rfl
          unfold someStepFails at hf
          rw [hdl, hg, hrn, h3] at hf
          simp [isErrB] at hf

/-- C2 amended witness: the generic failure and the error-rename attempt
evaluated at the concrete event for `r2.jpg` and the environment whose
download throws `e500`. -/
theorem failure_signals_generic_error_witness :
    passesFilters "r2.jpg" "b" = true ∧
    someStepFails envDl500 = true ∧
    (processReceipt ev2 envDl500).result = .error (ocrFailedError "r2.jpg") ∧
    Effect.rename "b" "r2.jpg" ("[ERROR_PROCESSED]" ++ "r2.jpg")
        ∈ (processReceipt ev2 envDl500).effects := by
  refine ⟨by decide, by decide, ?_⟩
  exact failure_signals_generic_error ev2 envDl500 "r2.jpg" "b" rfl rfl (by decide) (by decide)

/-- C9: in every invocation, the success-tag rename of the source object is
issued only when the CSV append step returned without failing, and only at a
position directly after the CSV write in the operation trace: whenever the
trace contains `rename b n ([PROCESSED] ++ n)`, the append step did not fail
and the trace splits as `pre ++ csvWrite content :: rename :: post`. -/
theorem success_rename_only_after_append :
    ∀ (ev : UploadEvent) (env : Env) (b n : String),
      Effect.rename b n ("[PROCESSED]" ++ n) ∈ (processReceipt ev env).effects →
      appendFails env = false ∧
      ∃ pre post content,
        (processReceipt ev env).effects =
          pre ++ Effect.csvWrite content :: Effect.rename b n ("[PROCESSED]" ++ n) :: post := by
  intro ev env b n hmem
  rcases ev with ⟨oname, obucket, oct⟩
  rcases oname with _ | fn
  · simp [processReceipt] at hmem
  rcases obucket with _ | bk
  · simp [processReceipt] at hmem
  by_cases h1 : (fn == "" || bk == "") = true
  · simp [processReceipt, h1] at hmem
  by_cases h2 : (strStartsWith fn "[PROCESSED]" || fn == OUTPUT_CSV_FILE) = true
  · simp [processReceipt, h1, h2] at hmem
  have hpr : processReceipt ⟨some fn, some bk, oct⟩ env = tryBlock fn bk env := by
    simp [processReceipt, h1, h2]
  rw [hpr] at hmem ⊢
  unfold tryBlock at hmem ⊢
  rcases hdl : env.downloadResult with e | img
  · simp only [hdl] at hmem
    exact absurd (mem_errorCatch_effects bk fn b n _ _ hmem) (by simp)
  simp only [hdl] at hmem ⊢
  rcases hg : env.geminiResult with e | r
  · simp only [hg] at hmem
    exact absurd (mem_errorCatch_effects bk fn b n _ _ hmem) (by simp)
  simp only [hg] at hmem ⊢
  rcases happ : (appendDataToCsvFile (convertJsonToCsvData r fn)
      env.csvMeta env.csvWriteErr env.csvState).2 with e | newCsv
  · simp only [happ] at hmem
    have h := mem_errorCatch_effects bk fn b n _ _ hmem
    rw [List.mem_append] at h
    rcases h with h | h
    · simp at h
    · exact absurd h (rename_not_mem_append_effects _ _ _ _ _ _ _)
  simp only [happ] at hmem ⊢
  have hfail : appendFails env = false := by
    rw [← append_isErr_eq_appendFails (convertJsonToCsvData r fn) env, happ]
    rfl
  have hshape := append_effects_shape (convertJsonToCsvData r fn)
    env.csvMeta env.csvWriteErr env.csvState (by rw [happ]; rfl)
  rcases hrn : env.renameResult false with e | u
  · simp only [hrn] at hmem ⊢
    have h := mem_errorCatch_effects bk fn b n _ _ hmem
    rcases hshape with hs | hs
    · rw [hs] at h ⊢
      simp [renameFile] at h
      obtain ⟨rfl, rfl, -⟩ := h
      exact ⟨hfail,
        ⟨[Effect.download b n, Effect.gemini img "image/jpeg" GEMINI_PROMPT,
            Effect.csvMeta],
         [Effect.rename b n ("[ERROR_PROCESSED]" ++ n)],
         stringifyRows true (convertJsonToCsvData r n),
         by simp [errorCatch, renameFile]⟩⟩
    · rw [hs] at h ⊢
      simp [renameFile] at h
      obtain ⟨rfl, rfl, -⟩ := h
      exact ⟨hfail,
        ⟨[Effect.download b n, Effect.gemini img "image/jpeg" GEMINI_PROMPT,
            Effect.csvMeta, Effect.csvMeta],
         [Effect.rename b n ("[ERROR_PROCESSED]" ++ n)],
         stringifyRows false (convertJsonToCsvData r n),
         by simp [errorCatch, renameFile]⟩⟩
  · simp only [hrn] at hmem ⊢
    rcases hshape with hs | hs
    · rw [hs] at hmem ⊢
      simp [renameFile] at hmem
      obtain ⟨rfl, rfl, -⟩ := hmem
      exact ⟨hfail,
        ⟨[Effect.download b n, Effect.gemini img "image/jpeg" GEMINI_PROMPT,
            Effect.csvMeta],
         [], stringifyRows true (convertJsonToCsvData r n),
         by simp [renameFile]⟩⟩
    · rw [hs] at hmem ⊢
      simp [renameFile] at hmem
      obtain ⟨rfl, rfl, -⟩ := hmem
      exact ⟨hfail,
        ⟨[Effect.download b n, Effect.gemini img "image/jpeg" GEMINI_PROMPT,
            Effect.csvMeta, Effect.csvMeta],
         [], stringifyRows false (convertJsonToCsvData r n),
         by simp [renameFile]⟩⟩

/-- C9 witness: the success rename evaluated at the concrete event for
`r2.jpg` in the all-success environment, where the trace is exactly
download, Gemini call, existence check, CSV write, success rename. -/
theorem success_rename_only_after_append_witness :
    Effect.rename "b" "r2.jpg" ("[PROCESSED]" ++ "r2.jpg")
        ∈ (processReceipt ev2 envOk).effects ∧
    (appendFails envOk = false ∧
      ∃ pre post content,
        (processReceipt ev2 envOk).effects =
          pre ++ Effect.csvWrite content :: Effect.rename "b" "r2.jpg" ("[PROCESSED]" ++ "r2.jpg") :: post) :=
  ⟨by decide, success_rename_only_after_append ev2 envOk "b" "r2.jpg" (by decide)⟩

end VertexOcr
